import Mathlib

/-!
# Verification of the anti-spam deletion-request backend

Shallow embedding of the core services of the repository:

* `app/services/response_detector.py`  — keyword classifier
* `app/services/response_matcher.py`   — 3-tier response→request matcher
* `app/services/broker_service.py`     — broker domain resolution
* `app/services/deletion_request_service.py` — request lifecycle (create / send)
* `app/services/rate_limiter.py`       — Redis fixed-window limiter
* `app/tasks/email_tasks.py`           — background-job retry policy

Strings are modelled as `List Char`, timestamps as natural numbers of
seconds, floats as rationals.
-/

namespace AntiSpam

/-! ## Basic string helpers (Python `str` operations on `List Char`) -/

/-- Boolean test that `n` is a prefix of `h` (used to model a regex
alternative matching at the current scan position). -/
def isPrefixL : List Char → List Char → Bool
  | [], _ => true
  | _ :: _, [] => false
  | a :: as, b :: bs => a = b && isPrefixL as bs

/-- Python substring containment `n in h`. -/
def containsSub : List Char → List Char → Bool
  | n, [] => n.isEmpty
  | n, c :: t => isPrefixL n (c :: t) || containsSub n t

theorem isPrefixL_iff (n h : List Char) : isPrefixL n h = true ↔ n <+: h := by
  induction n generalizing h with
  | nil => simp [isPrefixL]
  | cons a as ih =>
    cases h with
    | nil => simp [isPrefixL]
    | cons b bs =>
      simp only [isPrefixL, Bool.and_eq_true, decide_eq_true_eq, ih,
        List.cons_prefix_cons]

/-- Python `str.lower` (per-character). -/
def lowerL (s : List Char) : List Char := s.map Char.toLower

theorem containsSub_iff (n h : List Char) : containsSub n h = true ↔ n <:+: h := by
  induction h with
  | nil => simp [containsSub, List.isEmpty_iff]
  | cons c t ih =>
    simp [containsSub, Bool.or_eq_true, isPrefixL_iff, ih, List.infix_cons_iff]

/-- Python `str.strip()`: drop leading and trailing whitespace. -/
def stripL (s : List Char) : List Char :=
  ((s.dropWhile Char.isWhitespace).reverse.dropWhile Char.isWhitespace).reverse

/-- Helper for `countWords`: the flag records whether the scan is currently
inside a word. -/
def countWordsAux : Bool → List Char → Nat
  | _, [] => 0
  | inWord, c :: t =>
    if c.isWhitespace then countWordsAux false t
    else (if inWord then 0 else 1) + countWordsAux true t

/-- Python `len(text.split())`: number of maximal whitespace-free runs. -/
def countWords (s : List Char) : Nat := countWordsAux false s

/-!
## ResponseDetector (`app/services/response_detector.py`)

`re.findall` on a pattern `kw1|kw2|...` scans left to right; at each
position the first alternative (in list order) that matches is taken and
the scan resumes after it, otherwise the scan advances one character.
`countMatches` reproduces exactly that. All keywords are non-empty, so the
`max … 1` in the drop is the keyword's length.
-/

/-- Fuel-indexed scan; the fuel only serves structural termination and is
never exhausted when it starts at the text's length, because every step
consumes at least one character. -/
def countMatchesF (kws : List (List Char)) : Nat → List Char → Nat
  | _, [] => 0
  | 0, _ :: _ => 0
  | fuel + 1, c :: t =>
    match kws.find? (fun kw => isPrefixL kw (c :: t)) with
    | some kw => 1 + countMatchesF kws fuel ((c :: t).drop (max kw.length 1))
    | none => countMatchesF kws fuel t

def countMatches (kws : List (List Char)) (s : List Char) : Nat :=
  countMatchesF kws s.length s

def CONFIRMATION_KEYWORDS : List (List Char) :=
  ["deleted", "removed", "erasure complete", "data erased",
   "successfully deleted", "removed from our database",
   "removed from our system", "no longer in our records",
   "deletion complete", "account closed", "account deleted",
   "unsubscribed", "removed from our list", "opt-out confirmed",
   "request completed", "successfully processed your request to delete"
  ].map String.toList

def REJECTION_KEYWORDS : List (List Char) :=
  ["unable to delete", "cannot delete", "denied", "rejected",
   "no record found", "no records found", "could not find",
   "we do not have", "not in our system", "not in our database",
   "unable to locate", "cannot verify", "insufficient information",
   "cannot process", "unable to fulfill", "request denied"
  ].map String.toList

def ACKNOWLEDGMENT_KEYWORDS : List (List Char) :=
  ["acknowledged", "acknowledge", "received your request", "processing your request",
   "reviewing your request", "working on your request",
   "will process", "will review", "in progress",
   "under review", "being processed", "ticket created",
   "case number", "reference number", "request number",
   "acknowledge receipt", "received and will", "thank you for contacting"
  ].map String.toList

def REQUEST_INFO_KEYWORDS : List (List Char) :=
  ["need more information", "need additional information",
   "verify your identity", "confirm your identity",
   "additional details", "provide more details",
   "please provide", "require verification",
   "identity verification", "verify that you are",
   "confirm that you", "need to verify", "unable to verify"
  ].map String.toList

inductive ResponseType where
  | CONFIRMATION
  | REJECTION
  | ACKNOWLEDGMENT
  | REQUEST_INFO
  | UNKNOWN
deriving DecidableEq, Repr

/-- The keyword table of a category (the Python class attributes;
`UNKNOWN` has no pattern, matching `pattern_map.get` returning `None`). -/
def keywordsOf : ResponseType → List (List Char)
  | .CONFIRMATION => CONFIRMATION_KEYWORDS
  | .REJECTION => REJECTION_KEYWORDS
  | .ACKNOWLEDGMENT => ACKNOWLEDGMENT_KEYWORDS
  | .REQUEST_INFO => REQUEST_INFO_KEYWORDS
  | .UNKNOWN => []

def allKeywords : List (List Char) :=
  CONFIRMATION_KEYWORDS ++ REJECTION_KEYWORDS ++
    ACKNOWLEDGMENT_KEYWORDS ++ REQUEST_INFO_KEYWORDS

/-- Python `' '.join(filter(None, [subject or '', body or '']))`. -/
def combineText (subject body : Option (List Char)) : List Char :=
  List.intercalate [' ']
    (([subject.getD [], body.getD []]).filter fun p => !p.isEmpty)

/-- The lower-cased combined subject+body text the classifier scans. -/
def classifierText (subject body : Option (List Char)) : List Char :=
  lowerL (combineText subject body)

/-- Method `_has_keyword_match`: `pattern.search`, i.e. some keyword of the
category occurs as a substring. -/
def hasKeywordMatch (t : ResponseType) (s : List Char) : Bool :=
  (keywordsOf t).any fun kw => containsSub kw s

/-- Python `min` on rationals (kernel-reducible, unlike the lattice `⊓`). -/
def qmin (a b : ℚ) : ℚ := if a ≤ b then a else b

/-- Python `max` on rationals. -/
def qmax (a b : ℚ) : ℚ := if a < b then b else a

/-- Python's `round` (banker's rounding, half to even) on rationals. -/
def pyRound (q : ℚ) : ℤ :=
  let f := ⌊q⌋
  if q - f < 1/2 then f
  else if (1 : ℚ)/2 < q - f then f + 1
  else if f % 2 = 0 then f else f + 1

/-- Python `round(x, 2)`. -/
def round2 (q : ℚ) : ℚ := (pyRound (q * 100) : ℚ) / 100

def categoryCount (t : ResponseType) (text : List Char) : Nat :=
  countMatches (keywordsOf t) text

def maxCount (text : List Char) : Nat :=
  max (categoryCount .CONFIRMATION text)
    (max (categoryCount .REJECTION text)
      (max (categoryCount .ACKNOWLEDGMENT text)
        (categoryCount .REQUEST_INFO text)))

/-- The winning category: Python `max(matches.items(), key=...)` over the
dict in insertion order returns the FIRST category attaining the maximal
count, in the order CONFIRMATION, REJECTION, ACKNOWLEDGMENT, REQUEST_INFO. -/
def detectedType (text : List Char) : ResponseType :=
  if categoryCount .CONFIRMATION text = maxCount text then .CONFIRMATION
  else if categoryCount .REJECTION text = maxCount text then .REJECTION
  else if categoryCount .ACKNOWLEDGMENT text = maxCount text then .ACKNOWLEDGMENT
  else .REQUEST_INFO

/-- Method `ResponseDetector.detect_response_type`. Confidence arithmetic is done
in ℚ (the Python code uses floats). -/
def detect_response_type (subject body : Option (List Char)) :
    ResponseType × ℚ :=
  let text := classifierText subject body
  if text.isEmpty then (.UNKNOWN, 0)
  else if maxCount text = 0 then (.UNKNOWN, 0)
  else
    let maxMatches := maxCount text
    let detected := detectedType text
    let textWords := countWords text
    let confidence : ℚ :=
      if textWords = 0 then 0
      else qmin ((maxMatches : ℚ) / qmax ((textWords : ℚ) / 10) 1 * (3/10) + 2/5) 1
    let boost : Bool :=
      match subject with
      | some subj => !subj.isEmpty && hasKeywordMatch detected (lowerL subj)
      | none => false
    let confidence := if boost then qmin (confidence + 3/20) 1 else confidence
    (detected, round2 confidence)

/-!
## Data model (`app/models/deletion_request.py`, migration `91bb03064d41`)

Timestamps are seconds since the epoch (`Nat`), ids are `Nat`, strings are
`List Char`.  The `deleted_at` column is added by alembic migration
`91bb03064d41` and used by `email_scanner.py` and the test suite; the ORM
model file itself does not declare it, so it is carried here as a field of
the row type.
-/

inductive RequestStatus where
  | PENDING
  | SENT
  | CONFIRMED
  | REJECTED
deriving DecidableEq, Repr

structure DeletionRequestS where
  id : Nat := 0
  userId : Nat := 0
  brokerId : Nat := 0
  status : RequestStatus := .PENDING
  source : List Char := "manual".toList
  generatedEmailSubject : Option (List Char) := none
  generatedEmailBody : Option (List Char) := none
  sentAt : Option Nat := none
  confirmedAt : Option Nat := none
  rejectedAt : Option Nat := none
  gmailSentMessageId : Option (List Char) := none
  gmailThreadId : Option (List Char) := none
  lastSendError : Option (List Char) := none
  sendAttempts : Nat := 0
  nextRetryAt : Option Nat := none
  notes : Option (List Char) := none
  createdAt : Nat := 0
  deletedAt : Option Nat := none
deriving DecidableEq, Repr

/-- Model `app/models/broker_response.py` (`BrokerResponse`). -/
structure BrokerResponseS where
  id : Nat := 0
  userId : Nat := 0
  deletionRequestId : Option Nat := none
  gmailMessageId : List Char := []
  gmailThreadId : Option (List Char) := none
  senderEmail : List Char := []
  subject : Option (List Char) := none
  bodyText : Option (List Char) := none
deriving DecidableEq, Repr

/-- The `DataBroker` model file is absent from the repository sources;
modelled from the spec's broker directory (registered `domains`, optional
`privacy_email`) and from the fields the services read. -/
structure DataBrokerS where
  id : Nat := 0
  name : List Char := []
  domains : List (List Char) := []
  privacyEmail : Option (List Char) := none
deriving DecidableEq, Repr

/-!
## DeletionRequestService (`app/services/deletion_request_service.py`)
-/

/-- Left scan keeping the current best row; a later row replaces the best
only when its key is strictly greater. -/
def firstMaxByAux {α : Type} (key : α → Nat) (best : α) : List α → α
  | [] => best
  | y :: ys =>
    if key y > key best then firstMaxByAux key y ys
    else firstMaxByAux key best ys

/-- First element of the list attaining the maximal key (the row an
`ORDER BY key DESC ... .first()` query returns). -/
def firstMaxBy {α : Type} (key : α → Nat) : List α → Option α
  | [] => none
  | x :: xs => some (firstMaxByAux key x xs)

/-- The `create_request` lookup: most recent request for (user, broker),
ordered by `created_at` descending.  Note: the query does NOT filter on
`deleted_at`. -/
def mostRecentRequestFor (requests : List DeletionRequestS)
    (userId brokerId : Nat) : Option DeletionRequestS :=
  firstMaxBy (fun r => r.createdAt)
    (requests.filter fun r => r.userId == userId && r.brokerId == brokerId)

inductive CreateError where
  | conflict
deriving DecidableEq, Repr

/-- The row `create_request` persists: a fresh PENDING request for the
pair with the generated subject/body. -/
def newPendingRequest (userId brokerId now newId : Nat)
    (subject body : List Char) : DeletionRequestS :=
  { id := newId, userId := userId, brokerId := brokerId, status := .PENDING,
    generatedEmailSubject := some subject, generatedEmailBody := some body,
    createdAt := now }

/-- Method `DeletionRequestService.create_request`.  `requests` is the table
content, `newId` the id the store assigns, `subject`/`body` the template
output (`EmailTemplates.generate_deletion_request_email`).  The warning
string is abstracted to the day count it interpolates (`None` = no
warning). -/
def create_request (requests : List DeletionRequestS) (userId brokerId : Nat)
    (now : Nat) (newId : Nat) (subject body : List Char) :
    Except CreateError (DeletionRequestS × Option Nat) :=
  match mostRecentRequestFor requests userId brokerId with
  | some existing =>
    if existing.status = .PENDING ∨ existing.status = .SENT then
      .error .conflict
    else
      let daysSince := (now - existing.createdAt) / 86400
      let warning := if daysSince < 30 then some daysSince else none
      .ok (newPendingRequest userId brokerId now newId subject body, warning)
  | none =>
    .ok (newPendingRequest userId brokerId now newId subject body, none)

/-- Outcome of the external `gmail_service.send_email` call
(`SendMessage` collaborator): success carries the returned message and
thread identifiers; `GmailQuotaExceededError` carries the optional
`retry_after`. -/
inductive SendOutcome where
  | success (messageId : List Char) (threadId : Option (List Char))
  | permissionError (msg : List Char)
  | quotaExceeded (retryAfter : Option Nat)
  | otherError (msg : List Char)
deriving DecidableEq, Repr

inductive SendError where
  | badStatus (s : RequestStatus)
  | retryLater (minutes : Nat)
  | noPrivacyEmail
  | permission
  | quotaRetryable
  | failed (msg : List Char)
deriving DecidableEq, Repr

/-- Python `e.retry_after or 60`: Python `or` falls back to 60 when `retry_after`
is `None` — and also when it is `0`, since `0` is falsy. -/
def pyRetryBase : Option Nat → Nat
  | none => 60
  | some r => if r = 0 then 60 else r

/-- Code `delay_seconds = min(60 * 60, retry_base_seconds * 2 ** min(send_attempts, 5))`. -/
def quotaDelay (base n : Nat) : Nat := min 3600 (base * 2 ^ min n 5)

/-- The rendered `last_send_error` of the quota branch (timestamp rendering
abstracted to decimal seconds instead of ISO format). -/
def quotaErrorMessage (retryAt : Nat) : List Char :=
  "Rate limited by Gmail. Next retry at ".toList ++ (toString retryAt).toList
    ++ " UTC.".toList

/-- Steps of `send_request_email` from the missing-privacy-email check on:
increment `send_attempts`, attempt the send, and commit the branch's
mutations. -/
def sendAttemptStep (req : DeletionRequestS) (privacyEmail : Option (List Char))
    (now : Nat) (outcome : SendOutcome) : Option SendError × DeletionRequestS :=
  if privacyEmail.isNone then (some .noPrivacyEmail, req)
  else
    let req1 := { req with sendAttempts := req.sendAttempts + 1 }
    match outcome with
    | .success mid tid =>
      (none,
        { req1 with
            status := .SENT
            sentAt := some now
            gmailSentMessageId := some mid
            gmailThreadId := tid
            lastSendError := none
            nextRetryAt := none })
    | .permissionError msg =>
      (some .permission, { req1 with lastSendError := some msg })
    | .quotaExceeded ra =>
      let delay := quotaDelay (pyRetryBase ra) req1.sendAttempts
      let retryAt := now + delay
      (some .quotaRetryable,
        { req1 with
            nextRetryAt := some retryAt
            lastSendError := some (quotaErrorMessage retryAt) })
    | .otherError msg =>
      (some (.failed msg), { req1 with lastSendError := some msg })

/-- Method `DeletionRequestService.send_request_email` on a request that exists.
`privacyEmail` is the broker's `privacy_email`, `outcome` is what the
external send would return (it is only reached when no guard fails).  The
first component is the raised error (`none` = success), the second the
request row after the call. -/
def send_request_email (req : DeletionRequestS)
    (privacyEmail : Option (List Char)) (now : Nat) (outcome : SendOutcome) :
    Option SendError × DeletionRequestS :=
  if req.status ≠ .PENDING then (some (.badStatus req.status), req)
  else
    match req.nextRetryAt with
    | some t =>
      if now < t then
        (some (.retryLater (max 1 ((t - now) / 60))), req)
      else sendAttemptStep req privacyEmail now outcome
    | none => sendAttemptStep req privacyEmail now outcome

/-!
## Broker domain resolution (`app/services/broker_service.py`) and
## ResponseMatcher (`app/services/response_matcher.py`)
-/

/-- Python `s.split(c)[0]`: the part before the first occurrence of `c`. -/
def beforeFirst (c : Char) : List Char → List Char
  | [] => []
  | x :: xs => if x = c then [] else x :: beforeFirst c xs

/-- Python `s.split(c)[1:]` head position: the part after the first
occurrence of `c`, `none` when `c` does not occur (`IndexError`). -/
def afterFirst (c : Char) : List Char → Option (List Char)
  | [] => none
  | x :: xs => if x = c then some xs else afterFirst c xs

/-- Method `ResponseMatcher._extract_domain`. -/
def extract_domain (email : List Char) : Option (List Char) :=
  if email.isEmpty || !containsSub ['@'] email then none
  else
    let e :=
      if containsSub ['<'] email && containsSub ['>'] email then
        beforeFirst '>' ((afterFirst '<' email).getD [])
      else email
    match afterFirst '@' e with
    | none => none
    | some rest => some (stripL (lowerL (beforeFirst '@' rest)))

/-- Method `BrokerService.get_broker_by_domain`: first broker (in table order)
such that the domain is one of its registered domains, or some registered
domain occurs as a substring of it (`d in domain`). -/
def get_broker_by_domain (brokers : List DataBrokerS) (domain : List Char) :
    Option DataBrokerS :=
  brokers.find? fun b =>
    b.domains.contains domain || b.domains.any fun d => containsSub d domain

def reply_keywords : List (List Char) :=
  ["re:", "deletion", "data", "privacy", "opt-out", "unsubscribe", "gdpr",
   "ccpa"].map String.toList

structure MatcherDB where
  requests : List DeletionRequestS
  responses : List BrokerResponseS
  brokers : List DataBrokerS
deriving Repr

/-- Method `ResponseMatcher._match_by_thread_id`. -/
def match_by_thread_id (db : MatcherDB) (resp : BrokerResponseS) :
    Option DeletionRequestS :=
  db.requests.find? fun r =>
    r.userId == resp.userId && r.gmailThreadId == resp.gmailThreadId
      && r.gmailThreadId.isSome

/-- Sort key of the `ORDER BY sent_at DESC` queries (all candidate rows
have a non-null `sent_at`). -/
def sentKey (r : DeletionRequestS) : Nat := r.sentAt.getD 0

/-- Row filter of the tier-2 query: same user+broker, status SENT,
`sent_at >= cutoff` (false on NULL `sent_at`). -/
def tier2Filter (userId brokerId cutoff : Nat) (r : DeletionRequestS) : Bool :=
  r.userId == userId && r.brokerId == brokerId
    && decide (r.status = .SENT)
    && (match r.sentAt with | some t => decide (cutoff ≤ t) | none => false)

/-- Method `ResponseMatcher._match_by_subject_and_sender`. -/
def match_by_subject_and_sender (db : MatcherDB) (resp : BrokerResponseS)
    (now : Nat) : Option DeletionRequestS :=
  match extract_domain resp.senderEmail with
  | none => none
  | some domain =>
    if domain.isEmpty then none
    else
      match get_broker_by_domain db.brokers domain with
      | none => none
      | some broker =>
        let subject := lowerL (resp.subject.getD [])
        if !(reply_keywords.any fun kw => containsSub kw subject) then none
        else
          firstMaxBy sentKey
            (db.requests.filter (tier2Filter resp.userId broker.id (now - 90 * 86400)))

/-- The `deletion_request_id`s that already have some `BrokerResponse`
attached (`requests_with_responses` subquery). -/
def attachedRequestIds (responses : List BrokerResponseS) : List Nat :=
  responses.filterMap fun br => br.deletionRequestId

/-- Row filter of the tier-3 query: tier-2 filter plus
`~DeletionRequest.id.in_(requests_with_responses)`. -/
def tier3Filter (responses : List BrokerResponseS) (userId brokerId cutoff : Nat)
    (r : DeletionRequestS) : Bool :=
  tier2Filter userId brokerId cutoff r
    && !(attachedRequestIds responses).contains r.id

/-- Method `ResponseMatcher._match_by_domain_and_time`. -/
def match_by_domain_and_time (db : MatcherDB) (resp : BrokerResponseS)
    (now : Nat) : Option DeletionRequestS :=
  match extract_domain resp.senderEmail with
  | none => none
  | some domain =>
    if domain.isEmpty then none
    else
      match get_broker_by_domain db.brokers domain with
      | none => none
      | some broker =>
        firstMaxBy sentKey
          (db.requests.filter
            (tier3Filter db.responses resp.userId broker.id (now - 90 * 86400)))

inductive MatchedBy where
  | thread_id
  | subject_sender
  | domain_time
deriving DecidableEq, Repr

/-- Tier 1 with its guard: `if response.gmail_thread_id:` (truthiness —
absent or empty thread id skips the tier). -/
def tier1Result (db : MatcherDB) (resp : BrokerResponseS) :
    Option DeletionRequestS :=
  match resp.gmailThreadId with
  | some t => if t.isEmpty then none else match_by_thread_id db resp
  | none => none

/-- Method `ResponseMatcher.match_response_to_request`: the 3-tier cascade, first
success wins. -/
def match_response_to_request (db : MatcherDB) (resp : BrokerResponseS)
    (now : Nat) : Option Nat × Option MatchedBy :=
  match tier1Result db resp with
  | some r => (some r.id, some .thread_id)
  | none =>
    match match_by_subject_and_sender db resp now with
    | some r => (some r.id, some .subject_sender)
    | none =>
      match match_by_domain_and_time db resp now with
      | some r => (some r.id, some .domain_time)
      | none => (none, none)

/-!
## RateLimiter (`app/services/rate_limiter.py`)
-/

structure RateLimitResult where
  allowed : Bool
  remaining : Int
  retry_after : Int
deriving DecidableEq, Repr

inductive RedisError where
  | unavailable
deriving DecidableEq, Repr

/-- The counter store as an oracle: each operation either answers or
raises `RedisError`. -/
structure CounterStore where
  incr : List Char → Except RedisError Int
  expire : List Char → Int → Except RedisError Bool
  ttl : List Char → Except RedisError Int

def rateKey (action userId : List Char) : List Char :=
  "rate:".toList ++ action ++ [':'] ++ userId

/-- Python `max` on integers. -/
def imax (a b : Int) : Int := if a < b then b else a

/-- The `try` block of `RateLimiter.check_limit`: any store error
propagates. `retry_after = ttl if ttl and ttl > 0 else window_seconds`
collapses to comparing `ttl` with 0. -/
def check_limit_inner (store : CounterStore) (userId action : List Char)
    (limit windowSeconds : Int) : Except RedisError RateLimitResult := do
  let key := rateKey action userId
  let current ← store.incr key
  if current = 1 then
    let _ ← store.expire key windowSeconds
  let ttl ← store.ttl key
  let retryAfter := if 0 < ttl then ttl else windowSeconds
  let remaining := imax (limit - current) 0
  pure { allowed := decide (current ≤ limit), remaining := remaining,
         retry_after := imax retryAfter 1 }

/-- Method `RateLimiter.check_limit`: absorbs `RedisError` and fails open; the
second component is the warning log entry emitted in that case. -/
def check_limit (store : CounterStore) (userId action : List Char)
    (limit windowSeconds : Int) : RateLimitResult × Option (List Char) :=
  match check_limit_inner store userId action limit windowSeconds with
  | .ok r => (r, none)
  | .error _ =>
    ({ allowed := true, remaining := limit, retry_after := 0 },
     some "Rate limiter unavailable, allowing request".toList)

/-!
## Background-job retry policy (`app/tasks/email_tasks.py`)

Only the failure handler of the two per-user scan tasks is modelled: what
it does as a function of `self.request.retries` (the attempt counter
Celery passes in, `max_retries=2`).
-/

inductive ActivityLevel where
  | INFO
  | WARNING
  | ERROR
deriving DecidableEq, Repr

inductive TaskFailAction where
  | retryIn (countdown : Nat)
  | reraise
  | returnFailure
deriving DecidableEq, Repr

structure TaskFailureOutcome where
  action : TaskFailAction
  logged : ActivityLevel
  stateFailure : Bool
deriving DecidableEq, Repr

/-- The `retry_intervals` of `scan_inbox_task` and `scan_for_responses_task`. -/
def perUserRetryIntervals : List Nat := [2 * 60, 10 * 60]

/-- The `except` handler of `scan_inbox_task`: retry while attempts
remain, else log terminal failure, set FAILURE state and re-raise. -/
def scan_inbox_task_on_failure (retries : Nat) : TaskFailureOutcome :=
  if h : retries < perUserRetryIntervals.length then
    { action := .retryIn (perUserRetryIntervals.get ⟨retries, h⟩),
      logged := .WARNING, stateFailure := false }
  else
    { action := .reraise, logged := .ERROR, stateFailure := true }

/-- The `except` handler of `scan_for_responses_task`: same schedule, but
after exhaustion it returns an error dict instead of raising. -/
def scan_for_responses_task_on_failure (retries : Nat) : TaskFailureOutcome :=
  if h : retries < perUserRetryIntervals.length then
    { action := .retryIn (perUserRetryIntervals.get ⟨retries, h⟩),
      logged := .WARNING, stateFailure := false }
  else
    { action := .returnFailure, logged := .ERROR, stateFailure := true }

/-!
## Support lemmas
-/

theorem firstMaxByAux_mem {α : Type} (key : α → Nat) (b : α) (l : List α) :
    firstMaxByAux key b l = b ∨ firstMaxByAux key b l ∈ l := by
  induction l generalizing b with
  | nil => exact Or.inl rfl
  | cons y ys ih =>
    simp only [firstMaxByAux]
    by_cases hk : key y > key b
    · rw [if_pos hk]
      rcases ih y with h | h
      · exact Or.inr (by rw [h]; exact List.mem_cons_self _ _)
      · exact Or.inr (List.mem_cons_of_mem _ h)
    · rw [if_neg hk]
      rcases ih b with h | h
      · exact Or.inl h
      · exact Or.inr (List.mem_cons_of_mem _ h)

theorem firstMaxByAux_best_le {α : Type} (key : α → Nat) (b : α)
    (l : List α) : key b ≤ key (firstMaxByAux key b l) := by
  induction l generalizing b with
  | nil => exact le_refl _
  | cons y ys ih =>
    simp only [firstMaxByAux]
    by_cases hk : key y > key b
    · rw [if_pos hk]
      exact le_trans (le_of_lt hk) (ih y)
    · rw [if_neg hk]
      exact ih b

theorem firstMaxByAux_le {α : Type} (key : α → Nat) (b : α) (l : List α) :
    ∀ y ∈ l, key y ≤ key (firstMaxByAux key b l) := by
  induction l generalizing b with
  | nil => intro y hy; simp at hy
  | cons z zs ih =>
    intro y hy
    simp only [firstMaxByAux]
    by_cases hk : key z > key b
    · rw [if_pos hk]
      cases hy with
      | head => exact firstMaxByAux_best_le key z zs
      | tail _ hmem => exact ih z y hmem
    · rw [if_neg hk]
      cases hy with
      | head => exact le_trans (le_of_not_lt hk) (firstMaxByAux_best_le key b zs)
      | tail _ hmem => exact ih b y hmem

theorem firstMaxBy_mem {α : Type} (key : α → Nat) (l : List α) (x : α)
    (h : firstMaxBy key l = some x) : x ∈ l := by
  cases l with
  | nil => simp [firstMaxBy] at h
  | cons a as =>
    simp only [firstMaxBy, Option.some.injEq] at h
    rw [← h]
    rcases firstMaxByAux_mem key a as with hm | hm
    · rw [hm]; exact List.mem_cons_self a as
    · exact List.mem_cons_of_mem _ hm

theorem firstMaxBy_le {α : Type} (key : α → Nat) (l : List α) (x : α)
    (h : firstMaxBy key l = some x) : ∀ y ∈ l, key y ≤ key x := by
  cases l with
  | nil => simp [firstMaxBy] at h
  | cons a as =>
    simp only [firstMaxBy, Option.some.injEq] at h
    intro y hy
    cases hy with
    | head => exact h ▸ firstMaxByAux_best_le key a as
    | tail _ hmem => exact h ▸ firstMaxByAux_le key a as y hmem

theorem countMatchesF_eq_zero_of_no_infix (kws : List (List Char))
    (fuel : Nat) (s : List Char) (h : ∀ kw ∈ kws, ¬ kw <:+: s) :
    countMatchesF kws fuel s = 0 := by
  induction fuel generalizing s with
  | zero => cases s <;> simp [countMatchesF]
  | succ n ih =>
    cases s with
    | nil => simp [countMatchesF]
    | cons c t =>
      have hf : kws.find? (fun kw => isPrefixL kw (c :: t)) = none := by
        apply List.find?_eq_none.mpr
        intro kw hkw hpre
        exact h kw hkw ((isPrefixL_iff _ _).mp hpre).isInfix
      simp only [countMatchesF, hf]
      exact ih t fun kw hkw hin =>
        h kw hkw (List.infix_cons_iff.mpr (Or.inr hin))

theorem countMatches_eq_zero_of_no_infix (kws : List (List Char))
    (s : List Char) (h : ∀ kw ∈ kws, ¬ kw <:+: s) :
    countMatches kws s = 0 :=
  countMatchesF_eq_zero_of_no_infix kws s.length s h

theorem keywordsOf_subset_allKeywords (t : ResponseType) :
    ∀ kw ∈ keywordsOf t, kw ∈ allKeywords := by
  intro kw hkw
  cases t <;> simp [keywordsOf] at hkw <;>
    simp [allKeywords] <;> tauto

/-- The fixed enumeration order of the four keyword categories (the
insertion order of the `matches` dict). -/
def categoryOrder : List ResponseType :=
  [.CONFIRMATION, .REJECTION, .ACKNOWLEDGMENT, .REQUEST_INFO]

theorem maxCount_attained (text : List Char) :
    maxCount text = categoryCount .CONFIRMATION text
      ∨ maxCount text = categoryCount .REJECTION text
      ∨ maxCount text = categoryCount .ACKNOWLEDGMENT text
      ∨ maxCount text = categoryCount .REQUEST_INFO text := by
  unfold maxCount
  rcases max_choice (categoryCount .CONFIRMATION text)
    (max (categoryCount .REJECTION text)
      (max (categoryCount .ACKNOWLEDGMENT text)
        (categoryCount .REQUEST_INFO text))) with h1 | h1 <;> rw [h1]
  · exact Or.inl rfl
  · rcases max_choice (categoryCount .REJECTION text)
      (max (categoryCount .ACKNOWLEDGMENT text)
        (categoryCount .REQUEST_INFO text)) with h2 | h2 <;> rw [h2]
    · exact Or.inr (Or.inl rfl)
    · rcases max_choice (categoryCount .ACKNOWLEDGMENT text)
        (categoryCount .REQUEST_INFO text) with h3 | h3 <;> rw [h3]
      · exact Or.inr (Or.inr (Or.inl rfl))
      · exact Or.inr (Or.inr (Or.inr rfl))

theorem classifierText_empty_maxCount (subject body : Option (List Char))
    (h : (classifierText subject body).isEmpty = true) :
    maxCount (classifierText subject body) = 0 := by
  rw [List.isEmpty_iff] at h
  rw [h]
  simp [maxCount, categoryCount, countMatches, countMatchesF]

theorem detect_fst_eq_detectedType (subject body : Option (List Char))
    (h : maxCount (classifierText subject body) ≠ 0) :
    (detect_response_type subject body).1
      = detectedType (classifierText subject body) := by
  have he : (classifierText subject body).isEmpty = false := by
    cases hh : (classifierText subject body).isEmpty
    · rfl
    · exact absurd (classifierText_empty_maxCount subject body hh) h
  unfold detect_response_type
  simp [he, h]

/-!
## Claims about the classifier
-/

/-- Claim C5: when two or more categories attain the same maximal nonzero
keyword-occurrence count, `detect_response_type` returns the first such
category in the enumeration order CONFIRMATION, REJECTION,
ACKNOWLEDGMENT, REQUEST_INFO; in particular a text whose CONFIRMATION and
REJECTION counts tie at the maximum classifies as CONFIRMATION. -/
theorem classify_tie_break (subject body : Option (List Char))
    (hmax : maxCount (classifierText subject body) ≠ 0)
    (htie : ∃ t1 ∈ categoryOrder, ∃ t2 ∈ categoryOrder, t1 ≠ t2
      ∧ categoryCount t1 (classifierText subject body)
          = maxCount (classifierText subject body)
      ∧ categoryCount t2 (classifierText subject body)
          = maxCount (classifierText subject body)) :
    (detect_response_type subject body).1
        = ((categoryOrder.filter fun t =>
            categoryCount t (classifierText subject body)
              = maxCount (classifierText subject body)).head?.getD .UNKNOWN)
      ∧ (categoryCount .CONFIRMATION (classifierText subject body)
            = categoryCount .REJECTION (classifierText subject body) →
          categoryCount .CONFIRMATION (classifierText subject body)
            = maxCount (classifierText subject body) →
          (detect_response_type subject body).1 = .CONFIRMATION) := by
  clear htie
  rw [detect_fst_eq_detectedType subject body hmax]
  constructor
  · by_cases hC : categoryCount .CONFIRMATION (classifierText subject body)
        = maxCount (classifierText subject body)
    · simp [detectedType, categoryOrder, hC]
    · by_cases hR : categoryCount .REJECTION (classifierText subject body)
          = maxCount (classifierText subject body)
      · simp [detectedType, categoryOrder, hC, hR]
      · by_cases hA : categoryCount .ACKNOWLEDGMENT (classifierText subject body)
            = maxCount (classifierText subject body)
        · simp [detectedType, categoryOrder, hC, hR, hA]
        · have hI : categoryCount .REQUEST_INFO (classifierText subject body)
              = maxCount (classifierText subject body) := by
            rcases maxCount_attained (classifierText subject body) with h | h | h | h
            · exact absurd h.symm hC
            · exact absurd h.symm hR
            · exact absurd h.symm hA
            · exact h.symm
          simp [detectedType, categoryOrder, hC, hR, hA, hI]
  · intro _ hCmax
    simp [detectedType, hCmax]

/-- Witness for C5: `"deleted denied"` has CONFIRMATION count 1 and
REJECTION count 1, both maximal; the classifier returns CONFIRMATION. -/
theorem classify_tie_break_witness :
    (detect_response_type none (some "deleted denied".toList)).1
      = .CONFIRMATION := by
  have h := classify_tie_break none (some "deleted denied".toList)
    (by decide)
    ⟨.CONFIRMATION, by decide, .REJECTION, by decide, by decide, by decide,
     by decide⟩
  exact h.2 (by decide) (by decide)

/-- Claim C6: if no keyword of any of the four categories occurs in the
lower-cased combined subject+body text (in particular when both inputs
are empty or null), `detect_response_type` returns exactly (UNKNOWN, 0.0). -/
theorem classify_no_keyword_unknown (subject body : Option (List Char))
    (h : ∀ kw ∈ allKeywords, ¬ kw <:+: classifierText subject body) :
    detect_response_type subject body = (.UNKNOWN, 0) := by
  have hz : maxCount (classifierText subject body) = 0 := by
    have hc : ∀ t : ResponseType,
        categoryCount t (classifierText subject body) = 0 := by
      intro t
      exact countMatches_eq_zero_of_no_infix _ _ fun kw hkw =>
        h kw (keywordsOf_subset_allKeywords t kw hkw)
    simp [maxCount, hc]
  unfold detect_response_type
  by_cases he : (classifierText subject body).isEmpty <;> simp [he, hz]

/-- Witness for C6: no keyword occurs in "hello world"; the result is
(UNKNOWN, 0.0). -/
theorem classify_no_keyword_unknown_witness :
    detect_response_type (some "hello world".toList) none = (.UNKNOWN, 0) := by
  have hnone : ∀ kw ∈ allKeywords,
      ¬ kw <:+: classifierText (some "hello world".toList) none := by
    have hb : ∀ kw ∈ allKeywords,
        containsSub kw (classifierText (some "hello world".toList) none)
          = false := by decide
    intro kw hkw hin
    have := (containsSub_iff kw _).mpr hin
    rw [hb kw hkw] at this
    cases this
  exact classify_no_keyword_unknown (some "hello world".toList) none hnone

/-!
## Claims about `send_request_email`
-/

/-- Claim C1, counterexample: the claim computes the backoff base as the
error's suggested retry-after with 60 only "if absent".  The code uses
Python `e.retry_after or 60`, which also replaces a present suggested
retry-after of 0 by 60: with `retry_after = 0` on a fresh PENDING request
(attempts after pre-increment = 1) the claim's formula gives
`delay = min(3600, 0 * 2^1) = 0`, i.e. `next_retry_at = now = 1000`, but
the code stores `now + 120 = 1120`. -/
theorem quota_backoff_zero_retry_after_counterexample :
    (send_request_email { status := .PENDING } (some "privacy".toList) 1000
        (.quotaExceeded (some 0))).2.nextRetryAt = some 1120
    ∧ 1000 + min 3600 (0 * 2 ^ min 1 5) = 1000
    ∧ (1120 : Nat) ≠ 1000 := by
  refine ⟨rfl, by decide, by decide⟩

/-- Claim C1, amended: on a quota-exceeded failure of a sendable PENDING
request the code stores
`next_retry_at = now + min(3600, base * 2^min(send_attempts, 5))` where
`send_attempts` is the pre-incremented counter and `base` is the
suggested retry-after when it is a nonzero value and 60 when it is absent
or zero (`pyRetryBase`); the request stays PENDING and a retryable error
is raised.  The delay is non-decreasing in the attempt number and capped
at 3600 seconds. -/
theorem quota_backoff_amended :
    (∀ (req : DeletionRequestS) (pe : List Char) (now : Nat) (ra : Option Nat),
      req.status = .PENDING →
      (∀ t, req.nextRetryAt = some t → t ≤ now) →
      (send_request_email req (some pe) now (.quotaExceeded ra)).1
          = some .quotaRetryable
        ∧ (send_request_email req (some pe) now (.quotaExceeded ra)).2.status
          = .PENDING
        ∧ (send_request_email req (some pe) now (.quotaExceeded ra)).2.nextRetryAt
          = some (now + quotaDelay (pyRetryBase ra) (req.sendAttempts + 1)))
    ∧ (∀ base n, quotaDelay base n ≤ quotaDelay base (n + 1))
    ∧ (∀ base n, quotaDelay base n ≤ 3600) := by
  refine ⟨?_, ?_, ?_⟩
  · intro req pe now ra hst hgate
    have hsend : send_request_email req (some pe) now (.quotaExceeded ra)
        = sendAttemptStep req (some pe) now (.quotaExceeded ra) := by
      unfold send_request_email
      rw [hst]
      cases hnr : req.nextRetryAt with
      | none => simp
      | some t =>
        have hn : ¬ (now < t) := not_lt.mpr (hgate t hnr)
        simp [hn]
    rw [hsend]
    unfold sendAttemptStep
    simp [hst]
  · intro base n
    unfold quotaDelay
    gcongr <;> omega
  · intro base n
    exact min_le_left _ _

/-- Witness for C1 (amended): attempts 2 → 3 after pre-increment, absent
retry-after → base 60, delay = min(3600, 60·2³) = 480. -/
theorem quota_backoff_amended_witness :
    (send_request_email
        { status := .PENDING, sendAttempts := 2, nextRetryAt := some 50 }
        (some "p".toList) 100 (.quotaExceeded none)).2.nextRetryAt
      = some 580 := by
  have h := (quota_backoff_amended.1
    { status := .PENDING, sendAttempts := 2, nextRetryAt := some 50 }
    "p".toList 100 none rfl (by intro t ht; simp at ht; omega)).2.2
  rw [h]
  decide

/-- Claim C2: on a request whose status is not PENDING, or a PENDING request
whose `next_retry_at` is set and strictly in the future,
`send_request_email` raises without invoking the external send (the
result does not depend on what the send would have returned) and leaves
the request row — in particular status, `sent_at` and the thread
identifier — unchanged. -/
theorem send_guard_no_attempt (req : DeletionRequestS)
    (pe : Option (List Char)) (now : Nat) (outcome out2 : SendOutcome)
    (h : req.status ≠ .PENDING ∨ ∃ t, req.nextRetryAt = some t ∧ now < t) :
    (send_request_email req pe now outcome).1.isSome = true
    ∧ (send_request_email req pe now outcome).2 = req
    ∧ send_request_email req pe now outcome
        = send_request_email req pe now out2 := by
  rcases h with hst | ⟨t, hnr, hlt⟩
  · unfold send_request_email
    simp [hst]
  · by_cases hst : req.status = .PENDING
    · unfold send_request_email
      simp [hst, hnr, hlt]
    · unfold send_request_email
      simp [hst]

/-- Witness for C2: a SENT request fails regardless of the send outcome
and is returned unchanged. -/
theorem send_guard_no_attempt_witness :
    (send_request_email { status := .SENT } none 0 (.success [] none)).1.isSome
        = true
    ∧ (send_request_email { status := .SENT } none 0 (.success [] none)).2
        = { status := .SENT } := by
  have h := send_guard_no_attempt { status := .SENT } none 0
    (.success [] none) (.otherError []) (Or.inl (by decide))
  exact ⟨h.1, h.2.1⟩

/-!
## Claims about `create_request`
-/

/-- Claim C3: if the most recent request for (user, broker) is PENDING or
SENT, `create_request` raises Conflict; if it is terminal and created
strictly less than 30 days ago, a new PENDING request is created together
with a warning; if it is terminal and 30 or more days old, or no prior
request exists, a new PENDING request is created without warning. -/
theorem create_request_policy (requests : List DeletionRequestS)
    (uid bid now newId : Nat) (subj bod : List Char) :
    (∀ r, mostRecentRequestFor requests uid bid = some r →
      ((r.status = .PENDING ∨ r.status = .SENT) →
          create_request requests uid bid now newId subj bod
            = .error .conflict)
      ∧ ((r.status = .CONFIRMED ∨ r.status = .REJECTED) →
          now - r.createdAt < 30 * 86400 →
          create_request requests uid bid now newId subj bod
            = .ok (newPendingRequest uid bid now newId subj bod,
                some ((now - r.createdAt) / 86400)))
      ∧ ((r.status = .CONFIRMED ∨ r.status = .REJECTED) →
          30 * 86400 ≤ now - r.createdAt →
          create_request requests uid bid now newId subj bod
            = .ok (newPendingRequest uid bid now newId subj bod, none)))
    ∧ (mostRecentRequestFor requests uid bid = none →
        create_request requests uid bid now newId subj bod
          = .ok (newPendingRequest uid bid now newId subj bod, none))
    ∧ (newPendingRequest uid bid now newId subj bod).status = .PENDING := by
  refine ⟨?_, ?_, rfl⟩
  · intro r hmr
    refine ⟨?_, ?_, ?_⟩
    · intro hact
      unfold create_request
      rw [hmr]
      simp [hact]
    · intro hterm hdays
      have hnact : ¬ (r.status = .PENDING ∨ r.status = .SENT) := by
        rcases hterm with h | h <;> simp [h]
      have hlt : (now - r.createdAt) / 86400 < 30 :=
        (Nat.div_lt_iff_lt_mul (by norm_num)).mpr hdays
      unfold create_request
      rw [hmr]
      simp [hnact, hlt]
    · intro hterm hdays
      have hnact : ¬ (r.status = .PENDING ∨ r.status = .SENT) := by
        rcases hterm with h | h <;> simp [h]
      have hge : ¬ ((now - r.createdAt) / 86400 < 30) := by
        rw [not_lt]
        exact (Nat.le_div_iff_mul_le (by norm_num)).mpr hdays
      unfold create_request
      rw [hmr]
      simp [hnact, hge]
  · intro hmr
    unfold create_request
    rw [hmr]

/-- Witness for C3: a SENT prior request for the same pair yields
Conflict. -/
theorem create_request_policy_witness :
    create_request [{ userId := 1, brokerId := 2, status := .SENT, createdAt := 10 }]
      1 2 5000 3 [] [] = .error .conflict := by
  exact ((create_request_policy
      [{ userId := 1, brokerId := 2, status := .SENT, createdAt := 10 }]
      1 2 5000 3 [] []).1
    { userId := 1, brokerId := 2, status := .SENT, createdAt := 10 }
    rfl).1 (Or.inr rfl)

/-!
## Claim C4: soft-deleted requests and active lookups
-/

/-- A soft-deleted (deleted_at set) PENDING request, as left behind by the
user's delete action. -/
def softDeletedPendingReq : DeletionRequestS where
  id := 1
  userId := 7
  brokerId := 9
  status := .PENDING
  gmailThreadId := some "t1".toList
  createdAt := 100
  deletedAt := some 200

/-- Claim C4, code bug: the spec and the repository's own tests
(`test_create_request_after_soft_delete_allowed`,
`test_get_user_requests_excludes_deleted`) require soft-deleted requests
to be excluded from active lookups, but neither the `create_request`
lookup nor any tier of the matcher filters on `deleted_at`: with only a
soft-deleted PENDING request present, `create_request` still raises
Conflict, and the matcher still matches a response to the soft-deleted
request by thread id. -/
theorem soft_delete_not_excluded :
    softDeletedPendingReq.deletedAt = some 200
    ∧ create_request [softDeletedPendingReq] 7 9 5000 2 [] []
        = .error .conflict
    ∧ match_response_to_request
        { requests := [softDeletedPendingReq], responses := [], brokers := [] }
        { id := 4, userId := 7, gmailThreadId := some "t1".toList, senderEmail := "x@y.z".toList }
        5000
      = (some 1, some .thread_id) := by
  refine ⟨rfl, rfl, rfl⟩

/-!
## Claim C7: tier 3 never steals an already-matched request
-/

/-- Claim C7: whenever the cascade answers with `matched_by = domain_time`,
no `BrokerResponse` in the store has its `deletion_request_id` set to the
returned request id, and the returned request is one of the user's SENT
requests for the resolved broker sent within the 90-day window with no
attached response, with maximal `sent_at` among those. -/
theorem domain_time_excludes_matched (db : MatcherDB) (resp : BrokerResponseS)
    (now : Nat) (rid : Nat)
    (h : match_response_to_request db resp now = (some rid, some .domain_time)) :
    (∀ br ∈ db.responses, br.deletionRequestId ≠ some rid)
    ∧ ∃ domain broker r,
        extract_domain resp.senderEmail = some domain
        ∧ get_broker_by_domain db.brokers domain = some broker
        ∧ r ∈ db.requests.filter
            (tier3Filter db.responses resp.userId broker.id (now - 90 * 86400))
        ∧ r.id = rid
        ∧ ∀ r' ∈ db.requests.filter
            (tier3Filter db.responses resp.userId broker.id (now - 90 * 86400)),
            sentKey r' ≤ sentKey r := by
  have hm3 : ∃ r, match_by_domain_and_time db resp now = some r ∧ r.id = rid := by
    unfold match_response_to_request at h
    cases ht1 : tier1Result db resp with
    | some r => rw [ht1] at h; simp at h
    | none =>
      rw [ht1] at h
      cases ht2 : match_by_subject_and_sender db resp now with
      | some r => rw [ht2] at h; simp at h
      | none =>
        rw [ht2] at h
        cases ht3 : match_by_domain_and_time db resp now with
        | some r =>
          rw [ht3] at h
          simp only [Prod.mk.injEq, Option.some.injEq] at h
          exact ⟨r, rfl, h.1⟩
        | none => rw [ht3] at h; simp at h
  obtain ⟨r, hm3, hrid⟩ := hm3
  unfold match_by_domain_and_time at hm3
  cases hd : extract_domain resp.senderEmail with
  | none => rw [hd] at hm3; simp at hm3
  | some domain =>
    rw [hd] at hm3
    dsimp only at hm3
    by_cases hde : domain.isEmpty
    · simp [hde] at hm3
    · rw [if_neg hde] at hm3
      cases hb : get_broker_by_domain db.brokers domain with
      | none => rw [hb] at hm3; simp at hm3
      | some broker =>
        rw [hb] at hm3
        dsimp only at hm3
        have hmem := firstMaxBy_mem _ _ _ hm3
        have hle := firstMaxBy_le _ _ _ hm3
        have hfilt := (List.mem_filter.mp hmem).2
        have hnotin : r.id ∉ attachedRequestIds db.responses := by
          simp only [tier3Filter, Bool.and_eq_true, Bool.not_eq_true'] at hfilt
          intro hin
          have hc : (attachedRequestIds db.responses).contains r.id = true := by
            simpa using hin
          rw [hc] at hfilt
          cases hfilt.2
        refine ⟨?_, domain, broker, r, rfl, hb, hmem, hrid, hle⟩
        intro br hbr heq
        apply hnotin
        rw [hrid]
        exact List.mem_filterMap.mpr ⟨br, hbr, heq⟩

/-- Witness for C7: tiers 1 and 2 fail (no thread id, no reply keyword in
the empty subject); tier 3 picks the single unmatched SENT request. -/
theorem domain_time_excludes_matched_witness :
    match_response_to_request
        { requests := [{ id := 3, userId := 7, brokerId := 9, status := .SENT, sentAt := some 1000 }],
          responses := [],
          brokers := [{ id := 9, domains := ["broker.com".toList] }] }
        { id := 5, userId := 7, senderEmail := "noreply@broker.com".toList }
        2000
      = (some 3, some .domain_time)
    ∧ ∀ br ∈ ([] : List BrokerResponseS), br.deletionRequestId ≠ some 3 := by
  constructor
  · rfl
  · exact (domain_time_excludes_matched
      { requests := [{ id := 3, userId := 7, brokerId := 9, status := .SENT, sentAt := some 1000 }],
        responses := [],
        brokers := [{ id := 9, domains := ["broker.com".toList] }] }
      { id := 5, userId := 7, senderEmail := "noreply@broker.com".toList }
      2000 3 rfl).1

/-!
## Claim C8: domain extraction and broker resolution
-/

theorem afterFirst_append_of_not_mem (c : Char) (xs ys : List Char)
    (h : c ∉ xs) : afterFirst c (xs ++ ys) = afterFirst c ys := by
  induction xs with
  | nil => rfl
  | cons x xt ih =>
    have hx : ¬ (x = c) := fun hh => h (hh ▸ List.mem_cons_self x xt)
    simp only [List.cons_append, afterFirst, if_neg hx]
    exact ih fun hm => h (List.mem_cons_of_mem x hm)

theorem beforeFirst_append_cons (c : Char) (xs ys : List Char)
    (h : c ∉ xs) : beforeFirst c (xs ++ c :: ys) = xs := by
  induction xs with
  | nil => simp [beforeFirst]
  | cons x xt ih =>
    have hx : ¬ (x = c) := fun hh => h (hh ▸ List.mem_cons_self x xt)
    simp only [List.cons_append, beforeFirst, if_neg hx]
    exact congrArg (List.cons x) (ih fun hm => h (List.mem_cons_of_mem x hm))

theorem beforeFirst_of_not_mem (c : Char) (xs : List Char) (h : c ∉ xs) :
    beforeFirst c xs = xs := by
  induction xs with
  | nil => rfl
  | cons x xt ih =>
    have hx : ¬ (x = c) := fun hh => h (hh ▸ List.mem_cons_self x xt)
    simp only [beforeFirst, if_neg hx]
    rw [ih fun hm => h (List.mem_cons_of_mem x hm)]

theorem containsChar_iff (c : Char) (l : List Char) :
    containsSub [c] l = true ↔ c ∈ l := by
  rw [containsSub_iff]
  constructor
  · rintro ⟨s, t, rfl⟩
    simp
  · intro hc
    obtain ⟨s, t, rfl⟩ := List.append_of_mem hc
    exact ⟨s, t, by simp⟩

/-- Claim C8, counterexample: the claim resolves a sender to a broker iff
the extracted domain equals or is a suffix of a registered domain and
says an inner-substring occurrence resolves to no broker.  The code uses
Python substring containment (`d in domain`): the extracted domain
`spokeo.com.evil.net` neither equals `spokeo.com` nor stands in any
suffix relation with it, yet it resolves to the broker. -/
theorem domain_resolution_substring_counterexample :
    extract_domain "attacker@spokeo.com.evil.net".toList
        = some "spokeo.com.evil.net".toList
    ∧ (get_broker_by_domain [{ id := 1, domains := ["spokeo.com".toList] }]
        "spokeo.com.evil.net".toList).isSome = true
    ∧ "spokeo.com.evil.net".toList ≠ "spokeo.com".toList
    ∧ ¬ "spokeo.com.evil.net".toList <:+ "spokeo.com".toList
    ∧ ¬ "spokeo.com".toList <:+ "spokeo.com.evil.net".toList := by
  refine ⟨rfl, rfl, by decide, by decide, by decide⟩

/-- Claim C8, amended: the matcher strips a leading display name and angle
brackets from the sender header and lower-cases (and strips) the part
after the `@`; the result resolves to a broker iff it is exactly one of
the broker's registered domains or some registered domain occurs as a
substring — including an inner substring — of it. -/
theorem domain_resolution_amended :
    (∀ (brokers : List DataBrokerS) (domain : List Char),
      (get_broker_by_domain brokers domain).isSome = true
        ↔ ∃ b ∈ brokers, domain ∈ b.domains ∨ ∃ d ∈ b.domains, d <:+: domain)
    ∧ (∀ (dname lp dom : List Char), '<' ∉ dname → '>' ∉ lp → '>' ∉ dom →
        '@' ∉ lp → '@' ∉ dom →
        extract_domain (dname ++ ('<' :: (lp ++ ('@' :: (dom ++ ['>'])))))
          = some (stripL (lowerL dom))) := by
  constructor
  · intro brokers domain
    unfold get_broker_by_domain
    rw [List.find?_isSome]
    constructor
    · rintro ⟨b, hb, hp⟩
      refine ⟨b, hb, ?_⟩
      rcases Bool.or_eq_true_iff.mp hp with hp | hp
      · exact Or.inl (by simpa using hp)
      · obtain ⟨d, hd, hc⟩ := List.any_eq_true.mp hp
        exact Or.inr ⟨d, hd, (containsSub_iff d domain).mp hc⟩
    · rintro ⟨b, hb, hcase⟩
      refine ⟨b, hb, Bool.or_eq_true_iff.mpr ?_⟩
      rcases hcase with hm | ⟨d, hd, hin⟩
      · exact Or.inl (by simpa using hm)
      · exact Or.inr (List.any_eq_true.mpr
          ⟨d, hd, (containsSub_iff d domain).mpr hin⟩)
  · intro dname lp dom h1 h2 h3 h4 h5
    have hat : containsSub ['@'] (dname ++ ('<' :: (lp ++ ('@' :: (dom ++ ['>'])))))
        = true := (containsChar_iff _ _).mpr (by simp)
    have hlt : containsSub ['<'] (dname ++ ('<' :: (lp ++ ('@' :: (dom ++ ['>'])))))
        = true := (containsChar_iff _ _).mpr (by simp)
    have hgt : containsSub ['>'] (dname ++ ('<' :: (lp ++ ('@' :: (dom ++ ['>'])))))
        = true := (containsChar_iff _ _).mpr (by simp)
    have hne : (dname ++ ('<' :: (lp ++ ('@' :: (dom ++ ['>']))))).isEmpty
        = false := by
      simp [List.isEmpty_iff]
    have hafter : afterFirst '<' (dname ++ ('<' :: (lp ++ ('@' :: (dom ++ ['>'])))))
        = some (lp ++ ('@' :: (dom ++ ['>']))) := by
      rw [afterFirst_append_of_not_mem '<' dname _ h1]
      simp [afterFirst]
    have hbefore : beforeFirst '>' (lp ++ ('@' :: (dom ++ ['>'])))
        = lp ++ ('@' :: dom) := by
      have hrw : lp ++ ('@' :: (dom ++ ['>']))
          = (lp ++ ('@' :: dom)) ++ '>' :: [] := by
        simp
      rw [hrw]
      apply beforeFirst_append_cons
      intro hm
      rcases List.mem_append.mp hm with hm | hm
      · exact h2 hm
      · rcases List.mem_cons.mp hm with hm | hm
        · cases hm
        · exact h3 hm
    have hafter2 : afterFirst '@' (lp ++ ('@' :: dom)) = some dom := by
      rw [afterFirst_append_of_not_mem '@' lp _ h4]
      simp [afterFirst]
    unfold extract_domain
    rw [hat, hlt, hgt, hne]
    simp only [Bool.not_true, Bool.or_false, Bool.false_or, Bool.and_self,
      if_false, Bool.true_and, cond_true, Bool.false_eq_true, ite_false,
      ite_true]
    rw [hafter]
    simp only [Option.getD_some]
    rw [hbefore, hafter2]
    dsimp only
    rw [beforeFirst_of_not_mem '@' dom h5]

/-- Witness for C8 (amended): a display-name header resolves through an
inner-substring match. -/
theorem domain_resolution_amended_witness :
    extract_domain "Spokeo Privacy <no-reply@mail.spokeo.com>".toList
        = some "mail.spokeo.com".toList
    ∧ ((get_broker_by_domain [{ id := 1, domains := ["spokeo.com".toList] }]
        "mail.spokeo.com".toList).isSome = true
      ↔ ∃ b ∈ [({ id := 1, domains := ["spokeo.com".toList] } : DataBrokerS)],
          "mail.spokeo.com".toList ∈ b.domains
            ∨ ∃ d ∈ b.domains, d <:+: "mail.spokeo.com".toList) := by
  constructor
  · rfl
  · exact domain_resolution_amended.1
      [{ id := 1, domains := ["spokeo.com".toList] }] "mail.spokeo.com".toList

/-!
## Claim C9: per-user scan job retry policy
-/

/-- Claim C9, counterexample: the claim says that after both retries are
exhausted a per-user scan job "does not re-raise the error uncaught".
`scan_for_responses_task` returns an error dict, but `scan_inbox_task`
ends its handler with a bare `raise` at `retries = 2`. -/
theorem scan_inbox_reraises_counterexample :
    (scan_inbox_task_on_failure 2).action = .reraise
    ∧ TaskFailAction.reraise ≠ .returnFailure := by
  exact ⟨rfl, by decide⟩

/-- Claim C9, amended: both per-user scan jobs retry on failure with the
fixed schedule [2 minutes, 10 minutes]; after both retries are exhausted
both record a terminal failure (ERROR audit entry and FAILURE job state);
`scan_for_responses_task` then returns without raising, while
`scan_inbox_task` re-raises the original error. -/
theorem per_user_scan_retry_policy :
    perUserRetryIntervals = [2 * 60, 10 * 60]
    ∧ (∀ n, n < 2 →
        scan_inbox_task_on_failure n
            = { action := .retryIn (perUserRetryIntervals.getD n 0),
                logged := .WARNING, stateFailure := false }
          ∧ scan_for_responses_task_on_failure n
            = { action := .retryIn (perUserRetryIntervals.getD n 0),
                logged := .WARNING, stateFailure := false })
    ∧ (∀ n, 2 ≤ n →
        scan_inbox_task_on_failure n
            = { action := .reraise, logged := .ERROR, stateFailure := true }
          ∧ scan_for_responses_task_on_failure n
            = { action := .returnFailure, logged := .ERROR,
                stateFailure := true }) := by
  refine ⟨rfl, ?_, ?_⟩
  · intro n hn
    interval_cases n
    · exact ⟨rfl, rfl⟩
    · exact ⟨rfl, rfl⟩
  · intro n hn
    have h : ¬ (n < perUserRetryIntervals.length) := by
      simp [perUserRetryIntervals]
      omega
    constructor
    · unfold scan_inbox_task_on_failure
      rw [dif_neg h]
    · unfold scan_for_responses_task_on_failure
      rw [dif_neg h]

/-- Witness for C9 (amended): the first failure is retried after exactly
120 seconds; the third failure of the response-scan task returns. -/
theorem per_user_scan_retry_policy_witness :
    scan_inbox_task_on_failure 0
        = { action := .retryIn 120, logged := .WARNING, stateFailure := false }
    ∧ scan_for_responses_task_on_failure 2
        = { action := .returnFailure, logged := .ERROR, stateFailure := true } := by
  exact ⟨(per_user_scan_retry_policy.2.1 0 (by decide)).1,
    (per_user_scan_retry_policy.2.2 2 (by decide)).2⟩

/-!
## Claim C10: rate limiter fails open
-/

/-- Claim C10: any counter-store error inside `check_limit` is absorbed: the
call returns `allowed = true`, `remaining = limit`, `retry_after = 0`
together with a warning log entry, and no error propagates (stated both
for an arbitrary failing run of the `try` block and for a store whose
operations all fail). -/
theorem rate_limiter_fails_open :
    (∀ (store : CounterStore) (uid act : List Char) (limit window : Int)
        (e : RedisError),
      check_limit_inner store uid act limit window = .error e →
      check_limit store uid act limit window
        = ({ allowed := true, remaining := limit, retry_after := 0 },
           some "Rate limiter unavailable, allowing request".toList))
    ∧ (∀ (store : CounterStore) (uid act : List Char) (limit window : Int),
        (∀ key, store.incr key = .error .unavailable) →
        check_limit store uid act limit window
          = ({ allowed := true, remaining := limit, retry_after := 0 },
             some "Rate limiter unavailable, allowing request".toList)) := by
  constructor
  · intro store uid act limit window e herr
    unfold check_limit
    rw [herr]
  · intro store uid act limit window hdown
    have herr : check_limit_inner store uid act limit window
        = .error .unavailable := by
      unfold check_limit_inner
      dsimp only
      rw [hdown (rateKey act uid)]
      rfl
    unfold check_limit
    rw [herr]

/-- A store whose every operation fails. -/
def downStore : CounterStore where
  incr := fun _ => .error .unavailable
  expire := fun _ _ => .error .unavailable
  ttl := fun _ => .error .unavailable

/-- Witness for C10: the all-failing store yields the fail-open result. -/
theorem rate_limiter_fails_open_witness :
    check_limit downStore "u1".toList "scan".toList 5 3600
      = ({ allowed := true, remaining := 5, retry_after := 0 },
         some "Rate limiter unavailable, allowing request".toList) := by
  exact rate_limiter_fails_open.2 downStore "u1".toList "scan".toList 5 3600
    fun _ => rfl

end AntiSpam

